import Mathlib

/-!
Shallow embedding of `src/rag_bedrock.py`, a thin AWS Bedrock RAG client.

The module-level configuration constants become explicit values; the two
procedures `check_model_access` and `run_rag_query` become pure functions
parameterised over the network boundary: the model-listing outcome and the
retrieve-and-generate call are passed in as `Except String _` values
(`Except.error msg` models a Python exception whose `str` is `msg`).

Python dictionaries returned by `run_rag_query` are modelled as association
lists `List (String × PyVal)` so that the exact key sets of the returned
records are visible.  Optional dictionary fields of the provider response
are modelled as `Option` fields; the dictionary access `d[k]` that raises
`KeyError(k)` is modelled by `require`, whose error string is the Python
rendering `str(KeyError(k))`, that is the key wrapped in single quotes.
-/

set_option autoImplicit false
set_option maxRecDepth 16384

namespace RagBedrock

/-- `KNOWLEDGE_BASE_ID = "######"` (line 7); the comment above it in the
source marks this value as the placeholder the user must replace. -/
def KNOWLEDGE_BASE_ID : String := "######"

/-- `REGION_NAME = "us-west-2"` (line 11). -/
def REGION_NAME : String := "us-west-2"

/-- `MODEL_ID = "anthropic.claude-3-haiku-20240307-v1:0"` (line 14). -/
def MODEL_ID : String := "anthropic.claude-3-haiku-20240307-v1:0"

/-- The three module-level configuration constants, gathered so that the
two procedures can be stated for arbitrary configurations as well as for
the shipped one. -/
structure Config where
  knowledge_base_id : String
  region_name : String
  model_id : String
deriving DecidableEq

/-- The configuration exactly as shipped in the source file. -/
def defaultConfig : Config :=
  ⟨KNOWLEDGE_BASE_ID, REGION_NAME, MODEL_ID⟩

/-- One normalized citation appended at lines 109-112:
`{"source_uri": uri, "snippet": content}`. -/
structure Citation where
  source_uri : String
  snippet : String
deriving DecidableEq

/-- Values stored in the dictionaries `run_rag_query` returns: strings and
the list of citations. -/
inductive PyVal where
  | str : String → PyVal
  | cits : List Citation → PyVal
deriving DecidableEq

/-- A Python dictionary with string keys, as an association list in
insertion order. -/
abbrev PyDict := List (String × PyVal)

/-- `str(KeyError(k))` in Python: the key wrapped in single quotes. -/
def keyError (k : String) : String := "\x27" ++ k ++ "\x27"

/-- Python dictionary access `d[k]`: the value when the key is present,
otherwise a `KeyError(k)` exception. -/
def require {α : Type} (k : String) : Option α → Except String α
  | some v => Except.ok v
  | none => Except.error (keyError k)

/-- Equality of `Except` values is decidable when both component types
have decidable equality; used to evaluate the embedded functions at
concrete inputs. -/
instance {ε α : Type} [DecidableEq ε] [DecidableEq α] : DecidableEq (Except ε α) := fun x y =>
  match x, y with
  | Except.ok a, Except.ok b =>
      if h : a = b then isTrue (by rw [h])
      else isFalse (fun hc => h (Except.ok.inj hc))
  | Except.error e, Except.error f =>
      if h : e = f then isTrue (by rw [h])
      else isFalse (fun hc => h (Except.error.inj hc))
  | Except.ok _, Except.error _ => isFalse (fun hc => Except.noConfusion hc)
  | Except.error _, Except.ok _ => isFalse (fun hc => Except.noConfusion hc)

/-- Python substring test `sub in hay`: contiguous-substring containment,
decided on the character lists. -/
def strContains (hay sub : String) : Bool :=
  decide (sub.toList <:+: hay.toList)

/-- Shape of `ref["content"]`: may lack the `"text"` key. -/
structure ContentBlock where
  text : Option String
deriving DecidableEq

/-- Shape of one entry of `citation["retrievedReferences"]`: the `"uri"`
key read by `ref.get("uri", "N/A")` and the `"content"` key read by
`ref["content"]["text"]`, either of which may be absent. -/
structure RetrievedRef where
  uri : Option String
  content : Option ContentBlock
deriving DecidableEq

/-- Shape of one entry of `response["citations"]`: the
`"retrievedReferences"` key is tested with `in` before use. -/
structure CitationBlock where
  retrievedReferences : Option (List RetrievedRef)
deriving DecidableEq

/-- Shape of `response["output"]`: may lack the `"text"` key. -/
structure OutputBlock where
  text : Option String
deriving DecidableEq

/-- Shape of the retrieve-and-generate response as accessed by the code:
`response["output"]["text"]` (required access) and `response["citations"]`
(tested with `in` before use). -/
structure RagResponse where
  output : Option OutputBlock
  citations : Option (List CitationBlock)
deriving DecidableEq

/-- The request fields passed to `client.retrieve_and_generate` at lines
77-92: query text, knowledge-base id, interpolated model ARN, and the
vector-search `numberOfResults`. -/
structure RagRequest where
  inputText : String
  knowledgeBaseId : String
  modelArn : String
  numberOfResults : Nat
deriving DecidableEq

/-- The request `run_rag_query` constructs at lines 77-92, with the model
ARN interpolated from region and model id as at line 84 and
`numberOfResults = 3` as at line 87. -/
def mkRagRequest (cfg : Config) (query : String) : RagRequest :=
  ⟨query, cfg.knowledge_base_id,
    "arn:aws:bedrock:" ++ cfg.region_name ++ "::foundation-model/" ++ cfg.model_id,
    3⟩

/-- Error record returned at line 60. -/
def kbMissingMsg : String :=
  "Configuration Missing: Please set KNOWLEDGE_BASE_ID."

/-- Error record returned at line 62. -/
def regionMissingMsg : String :=
  "Configuration Missing: Please set REGION_NAME to your Knowledge Base region (e.g., \x27us-east-1\x27)."

/-- The remediation-annotated message built at lines 126-128 for the
model-access error class. -/
def modelAccessMsg (cfg : Config) (error_msg : String) : String :=
  "Model Access Error: " ++ error_msg ++
  "\n\nTroubleshooting:\n1. Check if the model \x27" ++ cfg.model_id ++
  "\x27 is available in region \x27" ++ cfg.region_name ++
  "\x27\n2. Verify you have access to this model in your AWS account\n3. Try using a different model like \x27anthropic.claude-3-haiku-20240307-v1:0\x27 or \x27anthropic.claude-3-sonnet-20240229-v1:0\x27"

/-- The remediation-annotated message built at lines 130-132 for the
authorization error class. -/
def accessDeniedMsg (error_msg : String) : String :=
  "Access Denied: " ++ error_msg ++
  "\n\nTroubleshooting:\n1. Check your AWS credentials\n2. Verify you have the necessary IAM permissions for Bedrock\n3. Ensure your Knowledge Base ID is correct"

/-- The `except` clause at lines 120-134: flat string-matching dispatch on
the textual representation of the exception. -/
def classifyError (cfg : Config) (error_msg : String) : PyDict :=
  if strContains error_msg "ValidationException" && strContains error_msg "access to the model" then
    [("error", PyVal.str (modelAccessMsg cfg error_msg))]
  else if strContains error_msg "AccessDeniedException" then
    [("error", PyVal.str (accessDeniedMsg error_msg))]
  else
    [("error", PyVal.str error_msg)]

/-- The body of the inner loop at lines 104-112: `ref.get("uri", "N/A")`
then `ref["content"]["text"]`, producing one normalized citation or
raising `KeyError`. -/
def refToCitation (ref : RetrievedRef) : Except String Citation := do
  let content ← require "content" ref.content
  let text ← require "text" content.text
  Except.ok ⟨ref.uri.getD "N/A", text⟩

/-- `citation["retrievedReferences"]` guarded by the `in` test at line
103: an absent key contributes no references. -/
def citationRefs (c : CitationBlock) : List RetrievedRef :=
  c.retrievedReferences.getD []

/-- The inner `for ref in citation["retrievedReferences"]` loop, appending
normalized citations in order. -/
def refsToCitations : List RetrievedRef → Except String (List Citation)
  | [] => Except.ok []
  | r :: rest => do
    let c ← refToCitation r
    let tail ← refsToCitations rest
    Except.ok (c :: tail)

/-- The outer `for citation in response["citations"]` loop at lines
102-112. -/
def extractCitations : List CitationBlock → Except String (List Citation)
  | [] => Except.ok []
  | cb :: rest => do
    let here ← refsToCitations (citationRefs cb)
    let tail ← extractCitations rest
    Except.ok (here ++ tail)

/-- Python `str.split` for the single-character separator `"/"`, on the
character list: splitting at every occurrence of the separator, with empty
parts kept, as Python does. -/
def splitOnSlash : List Char → List (List Char)
  | [] => [[]]
  | c :: cs =>
      match splitOnSlash cs with
      | [] => if c = '/' then [[], []] else [[c]]
      | r :: rs => if c = '/' then [] :: r :: rs else (c :: r) :: rs

/-- Python `MODEL_ID.split("/")[-1]` at line 117.  `split` never returns an
empty list, so the default of `getLastD` is never used. -/
def lastAfterSlash (s : String) : String :=
  ⟨(splitOnSlash s.data).getLastD []⟩

/-- Response processing at lines 94-118: extract the generated answer
(`response["output"]["text"]`), walk the optional citation structure, and
build the success record with keys `answer`, `sources`, `model_used`.  A
`KeyError` anywhere surfaces as `Except.error`. -/
def processResponse (cfg : Config) (resp : RagResponse) : Except String PyDict := do
  let out ← require "output" resp.output
  let generated_text ← require "text" out.text
  let citations ← extractCitations (resp.citations.getD [])
  Except.ok
    [("answer", PyVal.str generated_text),
     ("sources", PyVal.cits citations),
     ("model_used", PyVal.str (lastAfterSlash cfg.model_id))]

/-- The `try` block of lines 69-134 after the network boundary: a raised
exception (from client construction, the call, or response processing) is
caught by the single `except Exception` handler and classified;
a successful processing result is returned as is. -/
def attemptQuery (cfg : Config) (outcome : Except String RagResponse) : PyDict :=
  match outcome with
  | Except.error e => classifyError cfg e
  | Except.ok resp =>
    match processResponse cfg resp with
    | Except.ok result => result
    | Except.error e => classifyError cfg e

/-- `run_rag_query` (lines 48-134), parameterised over the network
boundary `net`: the sentinel checks at lines 59-62, then one
retrieve-and-generate call on the request of lines 77-92, then response
processing and error classification. -/
def run_rag_query (cfg : Config)
    (net : RagRequest → Except String RagResponse) (query : String) : PyDict :=
  if cfg.knowledge_base_id == "YOUR_KNOWLEDGE_BASE_ID_HERE" then
    [("error", PyVal.str kbMissingMsg)]
  else if cfg.region_name == "YOUR_KB_REGION_HERE" then
    [("error", PyVal.str regionMissingMsg)]
  else
    attemptQuery cfg (net (mkRagRequest cfg query))

/-- One entry of `response["modelSummaries"]`: the `"modelId"` key read by
`model["modelId"]`. -/
structure ModelSummary where
  modelId : Option String
deriving DecidableEq

/-- The list comprehension at line 33:
`[model["modelId"] for model in response["modelSummaries"]]`, which raises
`KeyError` on an entry without the key. -/
def extractModelIds : List ModelSummary → Except String (List String)
  | [] => Except.ok []
  | m :: rest => do
    let i ← require "modelId" m.modelId
    let tail ← extractModelIds rest
    Except.ok (i :: tail)

/-- `check_model_access` (lines 22-45), parameterised over the outcome of
the model-listing call: `Except.error` models any exception from client
construction, the call, or the `modelSummaries` extraction, all caught by
the handler at lines 43-45 which returns `False`; on success the code
tests `MODEL_ID in available_models`. -/
def check_model_access (cfg : Config)
    (listing : Except String (List ModelSummary)) : Bool :=
  match listing >>= extractModelIds with
  | Except.ok available_models => available_models.contains cfg.model_id
  | Except.error _ => false

/-! Builders for simulated provider responses, used to state the testable
properties: a reference carries an optional uri and a snippet that is
present, a block carries its list of references, and a response carries
its answer text and its blocks. -/

/-- A well-formed retrieved reference: optional uri, snippet present. -/
def mkRef (uri : Option String) (snippet : String) : RetrievedRef :=
  ⟨uri, some ⟨some snippet⟩⟩

/-- A citation block holding the given references. -/
def mkCitationBlock (refs : List (Option String × String)) : CitationBlock :=
  ⟨some (refs.map (fun p => mkRef p.1 p.2))⟩

/-- A nominally successful response with the given answer text and
citation blocks. -/
def mkResp (answer : String) (blocks : List (List (Option String × String))) : RagResponse :=
  ⟨some ⟨some answer⟩, some (blocks.map mkCitationBlock)⟩

/-- The normalization the code applies to one reference: default the
missing uri to "N/A", keep the snippet. -/
def normalizeRef (p : Option String × String) : Citation :=
  ⟨p.1.getD "N/A", p.2⟩

/-! ### Helper lemmas -/

theorem strContains_eq_true_iff {hay sub : String} :
    strContains hay sub = true ↔ sub.toList <:+: hay.toList := by
  simp [strContains]

theorem toList_append (a b : String) : (a ++ b).toList = a.toList ++ b.toList := by
  simp [String.toList, String.data_append]

theorem strContains_self (s : String) : strContains s s = true :=
  strContains_eq_true_iff.mpr (List.infix_refl _)

theorem strContains_append_left (a b sub : String)
    (h : strContains a sub = true) : strContains (a ++ b) sub = true := by
  rw [strContains_eq_true_iff] at h ⊢
  rw [toList_append]
  exact h.trans (List.prefix_append a.toList b.toList).isInfix

theorem strContains_append_right (a b sub : String)
    (h : strContains b sub = true) : strContains (a ++ b) sub = true := by
  rw [strContains_eq_true_iff] at h ⊢
  rw [toList_append]
  exact h.trans (List.suffix_append a.toList b.toList).isInfix

theorem run_rag_query_eq_attempt (cfg : Config)
    (net : RagRequest → Except String RagResponse) (query : String)
    (hkb : cfg.knowledge_base_id ≠ "YOUR_KNOWLEDGE_BASE_ID_HERE")
    (hrg : cfg.region_name ≠ "YOUR_KB_REGION_HERE") :
    run_rag_query cfg net query = attemptQuery cfg (net (mkRagRequest cfg query)) := by
  simp [run_rag_query, hkb, hrg]

theorem classifyError_raw (cfg : Config) (m : String)
    (h1 : ¬(strContains m "ValidationException" = true ∧ strContains m "access to the model" = true))
    (h2 : strContains m "AccessDeniedException" = false) :
    classifyError cfg m = [("error", PyVal.str m)] := by
  unfold classifyError
  rw [if_neg, if_neg]
  · simp [h2]
  · simpa using h1

theorem classifyError_shape (cfg : Config) (m : String) :
    ∃ e, classifyError cfg m = [("error", PyVal.str e)] := by
  unfold classifyError
  split
  · exact ⟨_, rfl⟩
  · split
    · exact ⟨_, rfl⟩
    · exact ⟨_, rfl⟩

theorem refsToCitations_mkRefs (rs : List (Option String × String)) :
    refsToCitations (rs.map (fun p => mkRef p.1 p.2)) = Except.ok (rs.map normalizeRef) := by
  induction rs with
  | nil => rfl
  | cons p rest ih =>
      simp only [List.map_cons, refsToCitations, ih]
      rfl

theorem extractCitations_mkBlocks (blocks : List (List (Option String × String))) :
    extractCitations (blocks.map mkCitationBlock) =
      Except.ok ((blocks.flatten).map normalizeRef) := by
  induction blocks with
  | nil => rfl
  | cons b rest ih =>
      simp only [List.map_cons, extractCitations, citationRefs, mkCitationBlock,
        Option.getD_some, refsToCitations_mkRefs, ih, List.flatten_cons, List.map_append]
      rfl

theorem error_bind {α β : Type} (e : String) (f : α → Except String β) :
    (Except.error e >>= f) = Except.error e := rfl

theorem ok_bind {α β : Type} (a : α) (f : α → Except String β) :
    (Except.ok a >>= f) = f a := rfl

theorem processResponse_some (cfg : Config) (answer : String)
    (cits : Option (List CitationBlock)) :
    processResponse cfg ⟨some ⟨some answer⟩, cits⟩ =
      extractCitations (cits.getD []) >>= fun citations =>
        Except.ok
          [("answer", PyVal.str answer),
           ("sources", PyVal.cits citations),
           ("model_used", PyVal.str (lastAfterSlash cfg.model_id))] := rfl

theorem refToCitation_error {r : RetrievedRef} {m : String}
    (h : refToCitation r = Except.error m) :
    m = keyError "content" ∨ m = keyError "text" := by
  rcases r with ⟨uri, content⟩
  cases content with
  | none =>
      have h2 : (Except.error (keyError "content") : Except String Citation) = Except.error m := h
      exact Or.inl (Except.error.inj h2).symm
  | some c =>
      rcases c with ⟨t⟩
      cases t with
      | none =>
          have h2 : (Except.error (keyError "text") : Except String Citation) = Except.error m := h
          exact Or.inr (Except.error.inj h2).symm
      | some s =>
          have h2 : (Except.ok (⟨uri.getD "N/A", s⟩ : Citation) : Except String Citation) = Except.error m := h
          exact Except.noConfusion h2

theorem refsToCitations_error {rs : List RetrievedRef} {m : String}
    (h : refsToCitations rs = Except.error m) :
    m = keyError "content" ∨ m = keyError "text" := by
  induction rs with
  | nil => exact Except.noConfusion h
  | cons r rest ih =>
      rw [refsToCitations] at h
      cases hr : refToCitation r with
      | error e =>
          rw [hr, error_bind] at h
          exact (Except.error.inj h) ▸ refToCitation_error hr
      | ok c =>
          rw [hr, ok_bind] at h
          cases ht : refsToCitations rest with
          | error e =>
              rw [ht, error_bind] at h
              have hem := Except.error.inj h
              subst hem
              exact ih ht
          | ok tail =>
              rw [ht, ok_bind] at h
              exact Except.noConfusion h

theorem extractCitations_error {cbs : List CitationBlock} {m : String}
    (h : extractCitations cbs = Except.error m) :
    m = keyError "content" ∨ m = keyError "text" := by
  induction cbs with
  | nil => exact Except.noConfusion h
  | cons cb rest ih =>
      rw [extractCitations] at h
      cases hr : refsToCitations (citationRefs cb) with
      | error e =>
          rw [hr, error_bind] at h
          exact (Except.error.inj h) ▸ refsToCitations_error hr
      | ok c =>
          rw [hr, ok_bind] at h
          cases ht : extractCitations rest with
          | error e =>
              rw [ht, error_bind] at h
              have hem := Except.error.inj h
              subst hem
              exact ih ht
          | ok tail =>
              rw [ht, ok_bind] at h
              exact Except.noConfusion h

theorem processResponse_error {cfg : Config} {resp : RagResponse} {m : String}
    (h : processResponse cfg resp = Except.error m) :
    m = keyError "output" ∨ m = keyError "text" ∨ m = keyError "content" := by
  rcases resp with ⟨out, cits⟩
  cases out with
  | none =>
      have h2 : (Except.error (keyError "output") : Except String PyDict) = Except.error m := h
      exact Or.inl (Except.error.inj h2).symm
  | some ob =>
      rcases ob with ⟨t⟩
      cases t with
      | none =>
          have h2 : (Except.error (keyError "text") : Except String PyDict) = Except.error m := h
          exact Or.inr (Or.inl (Except.error.inj h2).symm)
      | some answer =>
          rw [processResponse_some] at h
          cases hc : extractCitations (cits.getD []) with
          | error e =>
              rw [hc, error_bind] at h
              rcases (Except.error.inj h) ▸ extractCitations_error hc with h1 | h1
              · exact Or.inr (Or.inr h1)
              · exact Or.inr (Or.inl h1)
          | ok cs =>
              rw [hc, ok_bind] at h
              exact Except.noConfusion h

theorem processResponse_ok {cfg : Config} {resp : RagResponse} {d : PyDict}
    (h : processResponse cfg resp = Except.ok d) :
    ∃ t cs, d =
      [("answer", PyVal.str t),
       ("sources", PyVal.cits cs),
       ("model_used", PyVal.str (lastAfterSlash cfg.model_id))] := by
  rcases resp with ⟨out, cits⟩
  cases out with
  | none =>
      have h2 : (Except.error (keyError "output") : Except String PyDict) = Except.ok d := h
      exact Except.noConfusion h2
  | some ob =>
      rcases ob with ⟨t⟩
      cases t with
      | none =>
          have h2 : (Except.error (keyError "text") : Except String PyDict) = Except.ok d := h
          exact Except.noConfusion h2
      | some answer =>
          rw [processResponse_some] at h
          cases hc : extractCitations (cits.getD []) with
          | error e =>
              rw [hc, error_bind] at h
              exact Except.noConfusion h
          | ok cs =>
              rw [hc, ok_bind] at h
              exact ⟨answer, cs, (Except.ok.inj h).symm⟩

theorem attemptQuery_on_error (cfg : Config) (e : String) :
    attemptQuery cfg (Except.error e) = classifyError cfg e := rfl

theorem attemptQuery_on_ok (cfg : Config) (resp : RagResponse) :
    attemptQuery cfg (Except.ok resp) =
      match processResponse cfg resp with
      | Except.ok result => result
      | Except.error e => classifyError cfg e := rfl

theorem run_rag_query_branches (cfg : Config)
    (net : RagRequest → Except String RagResponse) (query : String) :
    (∃ m, run_rag_query cfg net query = [("error", PyVal.str m)])
    ∨ ∃ resp d, net (mkRagRequest cfg query) = Except.ok resp
        ∧ processResponse cfg resp = Except.ok d
        ∧ run_rag_query cfg net query = d := by
  unfold run_rag_query
  split
  · exact Or.inl ⟨kbMissingMsg, rfl⟩
  · split
    · exact Or.inl ⟨regionMissingMsg, rfl⟩
    · cases hnet : net (mkRagRequest cfg query) with
      | error e =>
          refine Or.inl ?_
          rw [attemptQuery_on_error]
          exact classifyError_shape cfg e
      | ok resp =>
          rw [attemptQuery_on_ok]
          cases hp : processResponse cfg resp with
          | error e =>
              refine Or.inl ?_
              exact classifyError_shape cfg e
          | ok d =>
              exact Or.inr ⟨resp, d, rfl, hp, rfl⟩

/-! ### Claims -/

/-- C1: the claim reads the shipped file, whose knowledge-base placeholder
is the string of hash marks; with that configuration left as shipped,
`run_rag_query` does not return a configuration-error record and does not
stop before the network boundary: the outcome of the network call (here an
error that records the knowledge-base id the request carried) reaches the
returned value, because the sentinel the code compares against is the
different string `YOUR_KNOWLEDGE_BASE_ID_HERE`.  This theorem evaluates
the code at the failing input. -/
theorem run_rag_query_shipped_placeholder_reaches_network :
    defaultConfig.knowledge_base_id = "######"
    ∧ run_rag_query defaultConfig
        (fun r => Except.error ("network call attempted: kb=" ++ r.knowledgeBaseId)) "query"
      = [("error", PyVal.str "network call attempted: kb=######")] := by
  constructor
  · rfl
  · decide

/-- C2: for every simulated provider response with any number of citation
reference entries spread over any citation blocks, and any configuration
passing the sentinel checks, `run_rag_query` returns a success record
whose sources are exactly the references in response order, each
normalized to its uri (defaulting to "N/A" when absent) and its
content text snippet. -/
theorem run_rag_query_normalizes_citations (cfg : Config) (query answer : String)
    (blocks : List (List (Option String × String)))
    (hkb : cfg.knowledge_base_id ≠ "YOUR_KNOWLEDGE_BASE_ID_HERE")
    (hrg : cfg.region_name ≠ "YOUR_KB_REGION_HERE") :
    run_rag_query cfg (fun _ => Except.ok (mkResp answer blocks)) query =
      [("answer", PyVal.str answer),
       ("sources", PyVal.cits ((blocks.flatten).map normalizeRef)),
       ("model_used", PyVal.str (lastAfterSlash cfg.model_id))] := by
  rw [run_rag_query_eq_attempt cfg _ query hkb hrg, attemptQuery_on_ok]
  rw [show (mkResp answer blocks : RagResponse)
        = ⟨some ⟨some answer⟩, some (blocks.map mkCitationBlock)⟩ from rfl]
  rw [processResponse_some]
  rw [show ((some (blocks.map mkCitationBlock) : Option (List CitationBlock)).getD [])
        = blocks.map mkCitationBlock from rfl]
  rw [extractCitations_mkBlocks, ok_bind]

/-- Witness for C2 at a concrete response with three references, one of
them missing its uri, spread over two citation blocks. -/
theorem run_rag_query_normalizes_citations_witness :
    run_rag_query defaultConfig
        (fun _ => Except.ok (mkResp "the answer"
          [[(some "s3://doc-a", "snippet A"), (none, "snippet B")],
           [(some "s3://doc-c", "snippet C")]])) "what?" =
      [("answer", PyVal.str "the answer"),
       ("sources", PyVal.cits
         [⟨"s3://doc-a", "snippet A"⟩, ⟨"N/A", "snippet B"⟩, ⟨"s3://doc-c", "snippet C"⟩]),
       ("model_used", PyVal.str (lastAfterSlash defaultConfig.model_id))] :=
  run_rag_query_normalizes_citations defaultConfig "what?" "the answer"
    [[(some "s3://doc-a", "snippet A"), (none, "snippet B")],
     [(some "s3://doc-c", "snippet C")]] (by decide) (by decide)

/-- C3: for every exception message matching neither the model-access
signature (both indicator substrings) nor the authorization signature,
`run_rag_query` returns a failure record whose error string is that
message unchanged. -/
theorem run_rag_query_unclassified_error_verbatim (cfg : Config) (query M : String)
    (hkb : cfg.knowledge_base_id ≠ "YOUR_KNOWLEDGE_BASE_ID_HERE")
    (hrg : cfg.region_name ≠ "YOUR_KB_REGION_HERE")
    (hnm : ¬(strContains M "ValidationException" = true ∧ strContains M "access to the model" = true))
    (hnd : strContains M "AccessDeniedException" = false) :
    run_rag_query cfg (fun _ => Except.error M) query = [("error", PyVal.str M)] := by
  rw [run_rag_query_eq_attempt cfg _ query hkb hrg, attemptQuery_on_error]
  exact classifyError_raw cfg M hnm hnd

/-- Witness for C3 at a concrete unclassified exception message. -/
theorem run_rag_query_unclassified_error_verbatim_witness :
    run_rag_query defaultConfig
        (fun _ => Except.error "ThrottlingException: Rate exceeded") "q"
      = [("error", PyVal.str "ThrottlingException: Rate exceeded")] :=
  run_rag_query_unclassified_error_verbatim defaultConfig "q"
    "ThrottlingException: Rate exceeded" (by decide) (by decide) (by decide) (by decide)

/-- C4 counterexample: a nominally successful response missing the
required `output` field does not propagate as an uncaught fault; the
`KeyError` is caught by the generic handler inside the `try` block and
`run_rag_query` returns it as an error value, the failure record whose
error string is the `KeyError` rendering of the missing key. -/
theorem run_rag_query_missing_output_returns_error_value :
    run_rag_query defaultConfig (fun _ => Except.ok ⟨none, none⟩) "hello" =
      [("error", PyVal.str "\x27output\x27")] := by
  decide

/-- C4 amended: for every nominally successful provider response on which
field extraction fails (missing generated answer text or missing
reference content text), `run_rag_query` catches the resulting fault and
returns a failure record whose error string is the `KeyError` rendering
of the missing key, which is always one of `output`, `text`, `content`. -/
theorem run_rag_query_malformed_response_caught (cfg : Config) (query : String)
    (resp : RagResponse) (msg : String)
    (hkb : cfg.knowledge_base_id ≠ "YOUR_KNOWLEDGE_BASE_ID_HERE")
    (hrg : cfg.region_name ≠ "YOUR_KB_REGION_HERE")
    (hfail : processResponse cfg resp = Except.error msg) :
    run_rag_query cfg (fun _ => Except.ok resp) query = [("error", PyVal.str msg)]
    ∧ (msg = keyError "output" ∨ msg = keyError "text" ∨ msg = keyError "content") := by
  have hmsg := processResponse_error hfail
  constructor
  · rw [run_rag_query_eq_attempt cfg _ query hkb hrg, attemptQuery_on_ok, hfail]
    show classifyError cfg msg = [("error", PyVal.str msg)]
    apply classifyError_raw
    · rcases hmsg with h | h | h <;> subst h <;> decide
    · rcases hmsg with h | h | h <;> subst h <;> decide
  · exact hmsg

/-- Witness for the amended C4 at a concrete response whose single
reference lacks its content field. -/
theorem run_rag_query_malformed_response_caught_witness :
    run_rag_query defaultConfig
        (fun _ => Except.ok ⟨some ⟨some "ans"⟩, some [⟨some [⟨some "s3://a", none⟩]⟩]⟩) "q"
      = [("error", PyVal.str "\x27content\x27")]
    ∧ ("\x27content\x27" = keyError "output" ∨ "\x27content\x27" = keyError "text"
        ∨ "\x27content\x27" = keyError "content") :=
  run_rag_query_malformed_response_caught defaultConfig "q"
    ⟨some ⟨some "ans"⟩, some [⟨some [⟨some "s3://a", none⟩]⟩]⟩ "\x27content\x27"
    (by decide) (by decide) (by decide)

/-- C5: `check_model_access` returns true exactly when the configured
model identifier appears in the returned model list, and returns false,
never raising, whenever the listing call itself fails. -/
theorem check_model_access_iff_listed (cfg : Config) :
    (∀ e : String, check_model_access cfg (Except.error e) = false)
    ∧ ∀ ids : List String,
        (check_model_access cfg (Except.ok (ids.map (fun i => ⟨some i⟩))) = true
          ↔ cfg.model_id ∈ ids) := by
  constructor
  · intro e
    rfl
  · intro ids
    have hext : extractModelIds (ids.map (fun i => (⟨some i⟩ : ModelSummary)))
        = Except.ok ids := by
      induction ids with
      | nil => rfl
      | cons i rest ih =>
          simp only [List.map_cons, extractModelIds, ih]
          rfl
    unfold check_model_access
    rw [ok_bind, hext]
    simp

/-- Witness for C5: a failing listing yields false, and a listing
containing the configured model yields true. -/
theorem check_model_access_iff_listed_witness :
    check_model_access defaultConfig (Except.error "ConnectionError") = false
    ∧ check_model_access defaultConfig
        (Except.ok ([ MODEL_ID, "meta.llama3-8b-instruct-v1:0"].map (fun i => ⟨some i⟩))) = true :=
  ⟨(check_model_access_iff_listed defaultConfig).1 "ConnectionError",
   ((check_model_access_iff_listed defaultConfig).2
      [ MODEL_ID, "meta.llama3-8b-instruct-v1:0"]).2 (by decide)⟩

/-- C6: for every exception message matching the model-access-denial
signature (it contains both indicator substrings), `run_rag_query`
returns a failure record whose error string contains the configured model
identifier and also contains an alternative model suggestion distinct
from the configured identifier. -/
theorem run_rag_query_model_access_denial_message (query M : String)
    (hval : strContains M "ValidationException" = true)
    (hacc : strContains M "access to the model" = true) :
    run_rag_query defaultConfig (fun _ => Except.error M) query
      = [("error", PyVal.str (modelAccessMsg defaultConfig M))]
    ∧ strContains (modelAccessMsg defaultConfig M) MODEL_ID = true
    ∧ strContains (modelAccessMsg defaultConfig M) "anthropic.claude-3-sonnet-20240229-v1:0" = true
    ∧ "anthropic.claude-3-sonnet-20240229-v1:0" ≠ MODEL_ID := by
  refine ⟨?_, ?_, ?_, by decide⟩
  · rw [run_rag_query_eq_attempt defaultConfig _ query (by decide) (by decide),
      attemptQuery_on_error]
    unfold classifyError
    rw [if_pos ((Bool.and_eq_true _ _).mpr ⟨hval, hacc⟩)]
  · unfold modelAccessMsg
    apply strContains_append_left
    apply strContains_append_left
    apply strContains_append_left
    apply strContains_append_right
    exact strContains_self MODEL_ID
  · unfold modelAccessMsg
    apply strContains_append_right
    decide

/-- Witness for C6 at a concrete model-access-denial message. -/
theorem run_rag_query_model_access_denial_message_witness :
    run_rag_query defaultConfig
        (fun _ => Except.error "ValidationException: no access to the model") "q"
      = [("error", PyVal.str (modelAccessMsg defaultConfig "ValidationException: no access to the model"))]
    ∧ strContains (modelAccessMsg defaultConfig "ValidationException: no access to the model") MODEL_ID = true
    ∧ strContains (modelAccessMsg defaultConfig "ValidationException: no access to the model")
        "anthropic.claude-3-sonnet-20240229-v1:0" = true
    ∧ "anthropic.claude-3-sonnet-20240229-v1:0" ≠ MODEL_ID :=
  run_rag_query_model_access_denial_message "q"
    "ValidationException: no access to the model" (by decide) (by decide)

/-- C7: for every exception message matching the authorization-denial
signature but not the model-access one, `run_rag_query` returns a failure
record whose error string mentions credentials and IAM permissions. -/
theorem run_rag_query_authorization_denial_message (query M : String)
    (hnm : ¬(strContains M "ValidationException" = true ∧ strContains M "access to the model" = true))
    (hd : strContains M "AccessDeniedException" = true) :
    run_rag_query defaultConfig (fun _ => Except.error M) query
      = [("error", PyVal.str (accessDeniedMsg M))]
    ∧ strContains (accessDeniedMsg M) "credentials" = true
    ∧ strContains (accessDeniedMsg M) "IAM permissions" = true := by
  have h1 : ¬((strContains M "ValidationException" && strContains M "access to the model") = true) := by
    simpa [Bool.and_eq_true] using hnm
  refine ⟨?_, ?_, ?_⟩
  · rw [run_rag_query_eq_attempt defaultConfig _ query (by decide) (by decide),
      attemptQuery_on_error]
    unfold classifyError
    rw [if_neg h1, if_pos hd]
  · unfold accessDeniedMsg
    apply strContains_append_right
    decide
  · unfold accessDeniedMsg
    apply strContains_append_right
    decide

/-- Witness for C7 at a concrete authorization-denial message. -/
theorem run_rag_query_authorization_denial_message_witness :
    run_rag_query defaultConfig
        (fun _ => Except.error "AccessDeniedException: not authorized") "q"
      = [("error", PyVal.str (accessDeniedMsg "AccessDeniedException: not authorized"))]
    ∧ strContains (accessDeniedMsg "AccessDeniedException: not authorized") "credentials" = true
    ∧ strContains (accessDeniedMsg "AccessDeniedException: not authorized") "IAM permissions" = true :=
  run_rag_query_authorization_denial_message "q"
    "AccessDeniedException: not authorized" (by decide) (by decide)

/-- C8: every value `run_rag_query` returns is one of the two record
shapes: its key list is exactly `error`, or exactly `answer`, `sources`,
`model_used`, in insertion order; no mixture and no omission occurs. -/
theorem run_rag_query_result_key_sets (cfg : Config)
    (net : RagRequest → Except String RagResponse) (query : String) :
    (run_rag_query cfg net query).map Prod.fst = ["error"]
    ∨ (run_rag_query cfg net query).map Prod.fst = ["answer", "sources", "model_used"] := by
  rcases run_rag_query_branches cfg net query with ⟨m, hm⟩ | ⟨resp, d, _, hp, hd⟩
  · rw [hm]
    exact Or.inl rfl
  · rcases processResponse_ok hp with ⟨t, cs, rfl⟩
    rw [hd]
    exact Or.inr rfl

/-- C9: for every query that passes the sentinel validation, the single
retrieve-and-generate request issued is exactly the one built by
`mkRagRequest`, whose vector-search result count is the fixed value 3,
not configurable by the caller. -/
theorem run_rag_query_fixed_retrieval_width (cfg : Config)
    (net : RagRequest → Except String RagResponse) (query : String)
    (hkb : cfg.knowledge_base_id ≠ "YOUR_KNOWLEDGE_BASE_ID_HERE")
    (hrg : cfg.region_name ≠ "YOUR_KB_REGION_HERE") :
    run_rag_query cfg net query = attemptQuery cfg (net (mkRagRequest cfg query))
    ∧ (mkRagRequest cfg query).numberOfResults = 3 :=
  ⟨run_rag_query_eq_attempt cfg net query hkb hrg, rfl⟩

/-- Witness for C9 at the shipped configuration. -/
theorem run_rag_query_fixed_retrieval_width_witness :
    run_rag_query defaultConfig (fun _ => Except.error "boom") "q"
      = attemptQuery defaultConfig
          ((fun _ => (Except.error "boom" : Except String RagResponse)) (mkRagRequest defaultConfig "q"))
    ∧ (mkRagRequest defaultConfig "q").numberOfResults = 3 :=
  run_rag_query_fixed_retrieval_width defaultConfig
    (fun _ => Except.error "boom") "q" (by decide) (by decide)

/-- C10: in every success record returned by `run_rag_query`, the
`model_used` field is the part of the configured model identifier after
its last slash; the configured `MODEL_ID` contains no slash, so that part
equals `MODEL_ID` itself and differs from the full interpolated model
ARN. -/
theorem run_rag_query_model_used_after_last_slash (cfg : Config)
    (net : RagRequest → Except String RagResponse) (query : String)
    (hsucc : (run_rag_query cfg net query).map Prod.fst = ["answer", "sources", "model_used"]) :
    (run_rag_query cfg net query).lookup "model_used"
        = some (PyVal.str (lastAfterSlash cfg.model_id))
    ∧ lastAfterSlash MODEL_ID = MODEL_ID
    ∧ lastAfterSlash MODEL_ID ≠ (mkRagRequest defaultConfig query).modelArn := by
  have harn : (mkRagRequest defaultConfig query).modelArn
      = "arn:aws:bedrock:" ++ REGION_NAME ++ "::foundation-model/" ++ MODEL_ID := rfl
  refine ⟨?_, by decide, ?_⟩
  · rcases run_rag_query_branches cfg net query with ⟨m, hm⟩ | ⟨resp, d, _, hp, hd⟩
    · rw [hm] at hsucc
      have hkeys : (["error"] : List String) = ["answer", "sources", "model_used"] := hsucc
      exact absurd hkeys (by decide)
    · rcases processResponse_ok hp with ⟨t, cs, rfl⟩
      rw [hd]
      rfl
  · rw [harn]
    decide

/-- Witness for C10 at a concrete successful query. -/
theorem run_rag_query_model_used_after_last_slash_witness :
    (run_rag_query defaultConfig (fun _ => Except.ok (mkResp "a" [])) "q").lookup "model_used"
        = some (PyVal.str (lastAfterSlash defaultConfig.model_id))
    ∧ lastAfterSlash MODEL_ID = MODEL_ID
    ∧ lastAfterSlash MODEL_ID ≠ (mkRagRequest defaultConfig "q").modelArn :=
  run_rag_query_model_used_after_last_slash defaultConfig
    (fun _ => Except.ok (mkResp "a" [])) "q" (by decide)

end RagBedrock
